/-
Verification of the CSV ingestion/validation/metrics core of the
ai-business-automation repository (app/services/csv_service.py and
app/routes/csv_routes.py), shallowly embedded in Lean 4.

Numeric cells are modelled over ℚ (the code uses pandas numerics); a CSV
row is a total function from column name to cell text, and a CSV file is
a header list plus a row list.  Python string primitives (`strip`,
`upper`, `split`, numeric/date parsing) are modelled by structurally
recursive functions over the character list of a string, so that every
definition evaluates inside the kernel.
-/
import Mathlib

namespace CsvCore

/-! ## Python string primitives -/

/-- `str.strip()`: drop whitespace from both ends of a character list. -/
def trimChars (l : List Char) : List Char :=
  ((l.dropWhile Char.isWhitespace).reverse.dropWhile Char.isWhitespace).reverse

/-- `str.strip()` on a string. -/
def pyStrip (s : String) : String := ⟨trimChars s.data⟩

/-- `str.upper()` on a string (ASCII, which is all the code compares). -/
def pyUpper (s : String) : String := ⟨s.data.map Char.toUpper⟩

/-- `str.split(sep)` on a character list: always returns at least one
(possibly empty) part. -/
def splitOnChar (sep : Char) : List Char → List (List Char)
  | [] => [[]]
  | c :: rest =>
    match splitOnChar sep rest with
    | [] => [[c]]
    | p :: ps => if c = sep then [] :: p :: ps else (c :: p) :: ps

/-- Digits read as a base-10 natural number (assumes all digits). -/
def digitsToNat (l : List Char) : Nat :=
  l.foldl (fun a c => a * 10 + (c.toNat - 48)) 0

/-! ## Cell parsing

`pd.to_datetime(..., format="%Y-%m-%d", errors="raise")` and
`pd.to_numeric(..., errors="raise")` are pandas library calls; we model
them on the grammar the repository's CSVs rely on: strict ISO dates
`YYYY-MM-DD`, and plain decimal literals with optional sign and optional
fraction part. -/

/-- Strict ISO `YYYY-MM-DD` date parsing, as enforced by the validator's
`format="%Y-%m-%d"`: four digit year, two digit month in 1..12, two
digit day in 1..31. -/
def parseDateIso (s : String) : Option (Nat × Nat × Nat) :=
  match splitOnChar '-' s.data with
  | [y, m, d] =>
    if y.length = 4 ∧ m.length = 2 ∧ d.length = 2 ∧
       y.all Char.isDigit ∧ m.all Char.isDigit ∧ d.all Char.isDigit then
      let mv := digitsToNat m
      let dv := digitsToNat d
      if 1 ≤ mv ∧ mv ≤ 12 ∧ 1 ≤ dv ∧ dv ≤ 31 then
        some (digitsToNat y, mv, dv)
      else none
    else none
  | _ => none

/-- A digit run with an optional fractional part, as a rational:
`"30" ↦ 30`, `"2.5" ↦ 5/2`.  An empty integer or fraction part is
allowed (`".5"`, `"5."`) but not both. -/
def parseUnsignedDecimal (l : List Char) : Option ℚ :=
  match splitOnChar '.' l with
  | [ip] =>
    if ip.length > 0 ∧ ip.all Char.isDigit then some (digitsToNat ip) else none
  | [ip, fp] =>
    if (ip.length > 0 ∨ fp.length > 0) ∧ ip.all Char.isDigit ∧ fp.all Char.isDigit then
      some ((digitsToNat ip : ℚ) + (digitsToNat fp : ℚ) / ((10 : ℚ) ^ fp.length))
    else none
  | _ => none

/-- Numeric cell parsing (model of `pd.to_numeric` on decimal literals):
optional surrounding whitespace, optional sign, unsigned decimal. -/
def parseDecimal (s : String) : Option ℚ :=
  match trimChars s.data with
  | '-' :: rest => (parseUnsignedDecimal rest).map (fun q => -q)
  | '+' :: rest => parseUnsignedDecimal rest
  | l => parseUnsignedDecimal l

/-! ## Data model

`CsvUpload` mirrors app/models/dt_csv_upload.py (fields the core reads or
writes; paths, hashes and timestamps carry no logic and are kept opaque
or omitted).  A CSV file is its header plus rows; a row is a total
function from column name to cell text, which is how the dataframe is
accessed after `usecols` filtering. -/

/-- Upload lifecycle status (dt_csv_upload.status). -/
inductive Status
  | uploaded | validated | invalid | processed | failed
deriving DecidableEq, Repr

/-- The two record types (csv_service.TYPES). -/
inductive CsvType
  | sales | inventory
deriving DecidableEq, Repr

/-- Required sales headers (csv_service.REQ_SALES). -/
def REQ_SALES : List String :=
  ["invoice_id", "invoice_date", "customer_id", "item_id", "qty", "unit_price"]

/-- Required inventory headers (csv_service.REQ_INV). -/
def REQ_INV : List String :=
  ["move_id", "move_date", "item_id", "type", "qty", "unit_cost"]

/-- csv_service.REQUIRED lookup. -/
def REQUIRED : CsvType → List String
  | .sales => REQ_SALES
  | .inventory => REQ_INV

/-- A parsed CSV row: cell text by column name. -/
def Row : Type := String → String

/-- A CSV file: header row plus data rows. -/
structure Csv where
  header : List String
  rows : List Row

/-- The durable upload record (fields the core logic reads/writes). -/
structure CsvUpload where
  csv_type : CsvType
  original_filename : String
  batch_id : Option String := none
  row_count : Option Nat := none
  status : Status := .uploaded
  error_msg : Option String := none
  detected_columns : Option (List String) := none
deriving DecidableEq

/-- csv_service._allowed_file: the filename contains a dot and the part
after the last dot lowercases to `csv`. -/
def _allowed_file (filename : String) : Bool :=
  filename.data.contains '.' &&
    (((splitOnChar '.' filename.data).getLastD []).map Char.toLower) = "csv".data

/-- csv_service.save_upload, record-level effect: rejects a non-`.csv`
filename (ValueError, modelled as `none`), otherwise creates the record
with status `uploaded` and no row count / error message.  (The unknown
record-type rejection is unrepresentable here because `csv_type` is
already the two-valued `CsvType`; file writing, renaming and hashing are
side effects outside the model.) -/
def save_upload (filename : String) (csv_type : CsvType)
    (batch_id : Option String) : Option CsvUpload :=
  if _allowed_file filename then
    some { csv_type := csv_type, original_filename := filename, batch_id := batch_id }
  else none

/-! ## Validation (csv_service.validate_upload) -/

/-- Module configuration: the row ceiling `MAX_CSV_ROWS` (default 100). -/
structure Config where
  maxRows : Nat := 100
deriving DecidableEq

/-- Header names as the validator sees them:
`[str(c).strip() for c in df.columns]`. -/
def strippedCols (csv : Csv) : List String := csv.header.map pyStrip

/-- Required columns absent from the stripped header
(`[c for c in required_cols if c not in cols]`). -/
def missingCols (t : CsvType) (csv : Csv) : List String :=
  (REQUIRED t).filter (fun c => !((strippedCols csv).contains c))

/-- `pd.read_csv(path, usecols=req)` raises when a requested column name
is not literally present in the file's header; that read sits outside
the validator's try-block, so the exception escapes. -/
def usecolsFail (t : CsvType) (csv : Csv) : Bool :=
  !(REQUIRED t).all (fun c => csv.header.contains c)

/-- The date column per type. -/
def dateCol : CsvType → String
  | .sales => "invoice_date"
  | .inventory => "move_date"

/-- The numeric columns per type. -/
def numCols : CsvType → List String
  | .sales => ["qty", "unit_price"]
  | .inventory => ["qty", "unit_cost"]

/-- Movement type, normalized as the code does:
`astype(str).str.upper().str.strip()`. -/
def normType (r : Row) : String := pyStrip (pyUpper (r "type"))

/-- The validator's try-block: strict date parse on the date column,
numeric parse on the numeric columns, and for inventory the movement
type must normalize into `{IN, OUT, ADJ}`. -/
def rowChecksOk (t : CsvType) (rows : List Row) : Bool :=
  rows.all (fun r => (parseDateIso (r (dateCol t))).isSome) &&
  (numCols t).all (fun c => rows.all (fun r => (parseDecimal (r c)).isSome)) &&
  (match t with
   | .sales => true
   | .inventory => rows.all (fun r => ["IN", "OUT", "ADJ"].contains (normType r)))

/-- Result of one validation call, as seen by the caller. -/
inductive VInfo
  | missing (cols : List String)
  | error (msg : String)
  | ok (row_count : Nat)
deriving DecidableEq, Repr

/-- One validation call either raises (the `usecols` re-read, outside the
try-block) or returns `(ok, info)`. -/
inductive VOut
  | exn
  | res (ok : Bool) (info : VInfo)
deriving DecidableEq, Repr

/-- The branch taken by validate_upload, a function of the configuration,
the record's type and the file alone (the record's other fields are never
read). Branch order follows the source: missing columns, then the
usecols re-read, then the row ceiling, then the try-block. -/
def validateOutcome (cfg : Config) (t : CsvType) (csv : Csv) : VOut :=
  if !(missingCols t csv).isEmpty then
    .res false (.missing (missingCols t csv))
  else if usecolsFail t csv then
    .exn
  else if csv.rows.length > cfg.maxRows then
    .res false (.error "Row limit exceeded")
  else if !rowChecksOk t csv.rows then
    .res false (.error "type/date error")
  else
    .res true (.ok csv.rows.length)

/-- How validate_upload mutates the record for each branch: the invalid
branches set status/error_msg/detected_columns (leaving row_count as it
was), the success branch sets status/row_count/detected_columns (leaving
error_msg as it was), and an escaped exception leaves the record
untouched (no commit happened). -/
def applyOutcome (rec : CsvUpload) (cols : List String) : VOut → CsvUpload
  | .exn => rec
  | .res _ (.missing m) =>
    { rec with status := .invalid,
               error_msg := some s!"Missing columns: {m}",
               detected_columns := some cols }
  | .res _ (.error msg) =>
    { rec with status := .invalid,
               error_msg := some msg,
               detected_columns := some cols }
  | .res _ (.ok n) =>
    { rec with status := .validated,
               row_count := some n,
               detected_columns := some cols }

/-- csv_service.validate_upload: mutate the record per the branch taken
and return the `(ok, info)` outcome. -/
def validate_upload (cfg : Config) (csv : Csv) (rec : CsvUpload) :
    CsvUpload × VOut :=
  let out := validateOutcome cfg rec.csv_type csv
  (applyOutcome rec (strippedCols csv) out, out)

/-- The record after one validation call. -/
def stepValidate (cfg : Config) (csv : Csv) (rec : CsvUpload) : CsvUpload :=
  (validate_upload cfg csv rec).1

/-- The record after `n` validation calls on the same (immutable) file. -/
def runValidates (cfg : Config) (csv : Csv) (rec : CsvUpload) : Nat → CsvUpload
  | 0 => rec
  | n + 1 => stepValidate cfg csv (runValidates cfg csv rec n)

/-! ## Metrics engine (csv_service.compute_sales_metrics /
compute_inventory_metrics)

Both functions receive the dataframe produced by `load_df_for`, i.e. the
file's data rows restricted to the required columns; in the model that is
just the row list, accessed by required column names.  The numeric
re-coercions `pd.to_numeric(..., errors="coerce").fillna(0)` at the top
of each function become `(parseDecimal _).getD 0`. -/

/-- Coerced `qty` cell: `pd.to_numeric(df["qty"], errors="coerce").fillna(0)`. -/
def qtyOf (r : Row) : ℚ := (parseDecimal (r "qty")).getD 0

/-- Coerced `unit_price` cell. -/
def unitPriceOf (r : Row) : ℚ := (parseDecimal (r "unit_price")).getD 0

/-- Coerced `unit_cost` cell. -/
def unitCostOf (r : Row) : ℚ := (parseDecimal (r "unit_cost")).getD 0

/-- Python `int(...)` on a rational: truncation toward zero. -/
def pyInt (q : ℚ) : ℤ := if 0 ≤ q then ⌊q⌋ else ⌈q⌉

/-- The date-bucket key `df[date_col].dt.date.astype(str)` after
`pd.to_datetime(..., errors="coerce")`: on this repository's validated
data the cell is already strict ISO and round-trips to itself; an
unparsable cell becomes `NaT`. -/
def dateKey (s : String) : String :=
  match parseDateIso s with
  | some _ => pyStrip s
  | none => "NaT"

/-- Group keys of a pandas `groupby` over a key list, one per distinct
value (bucket order is irrelevant to every claim, so the model keeps
dedup order rather than pandas's sorted order). -/
def groupKeys (keys : List String) : List String := keys.dedup

/-- Sales metrics output shape (the `kpis` dict of
compute_sales_metrics; the trend/ranking sequences live alongside). -/
structure SalesMetrics where
  revenue : ℚ
  units_sold : ℤ
  orders : ℕ
  aov : ℚ
  sales_trend : List (String × ℚ × ℚ)
deriving DecidableEq, Repr

/-- csv_service.compute_sales_metrics.
`revenue = Σ qty*unit_price`, `units = int(Σ qty)`,
`orders = nunique(invoice_id)`, `aov = revenue/orders if orders else 0`,
`sales_trend` groups revenue and units by calendar date.
(`top_items` is a ranking no claim touches and is not modelled.) -/
def compute_sales_metrics (rows : List Row) : SalesMetrics :=
  let revenue := (rows.map (fun r => qtyOf r * unitPriceOf r)).sum
  let units := pyInt (rows.map qtyOf).sum
  let orders := (rows.map (fun r => r "invoice_id")).dedup.length
  let aov : ℚ := if orders ≠ 0 then revenue / (orders : ℚ) else 0
  let dKey := fun r : Row => dateKey (r "invoice_date")
  let trend := (groupKeys (rows.map dKey)).map (fun d =>
    let g := rows.filter (fun r => dKey r == d)
    (d, (g.map (fun r => qtyOf r * unitPriceOf r)).sum, (g.map qtyOf).sum))
  { revenue := revenue, units_sold := units, orders := orders, aov := aov,
    sales_trend := trend }

/-- One row of the merged `inventory_levels` table: item, on-hand,
weighted-average cost, valuation. -/
structure InvLevel where
  item_id : String
  on_hand : ℚ
  wac : ℚ
  value : ℚ
deriving DecidableEq, Repr

/-- Inventory metrics output shape. -/
structure InventoryMetrics where
  cogs : ℚ
  inventory_levels : List InvLevel
  cogs_trend : List (String × ℚ)
deriving DecidableEq, Repr

/-- The signed-quantity helper `sgn` of compute_inventory_metrics:
`q if t=="IN" else (-q if t=="OUT" else q)`. -/
def sgn (t : String) (q : ℚ) : ℚ :=
  if t = "IN" then q else if t = "OUT" then -q else q

/-- The WAC subset filter: `(type=="IN") | ((type=="ADJ") & (qty>0))`. -/
def isWacRow (r : Row) : Bool :=
  normType r == "IN" || (normType r == "ADJ" && decide (0 < qtyOf r))

/-- csv_service.compute_inventory_metrics.
On-hand sums signed quantities per item; COGS sums `qty*unit_cost` over
`OUT` rows (with its per-date trend, empty when there are no `OUT`
rows); WAC is `Σ value / Σ qty` per item over the `IN`/positive-`ADJ`
subset; `inventory_levels` left-joins WAC onto on-hand with missing WAC
filled as 0 and `value = on_hand * wac`.
(In ℚ a zero `Σ qty` yields wac 0 where pandas would produce a
non-finite float; no claim exercises that corner.) -/
def compute_inventory_metrics (rows : List Row) : InventoryMetrics :=
  let items := groupKeys (rows.map (fun r => r "item_id"))
  let soh : List (String × ℚ) := items.map (fun k =>
    (k, ((rows.filter (fun r => r "item_id" == k)).map
          (fun r => sgn (normType r) (qtyOf r))).sum))
  let outs := rows.filter (fun r => normType r == "OUT")
  let cogs := (outs.map (fun r => qtyOf r * unitCostOf r)).sum
  let cogs_trend : List (String × ℚ) :=
    if outs.isEmpty then []
    else
      let dKey := fun r : Row => dateKey (r "move_date")
      (groupKeys (outs.map dKey)).map (fun d =>
        (d, ((outs.filter (fun r => dKey r == d)).map
              (fun r => qtyOf r * unitCostOf r)).sum))
  let inp := rows.filter isWacRow
  let wacTbl : List (String × ℚ) :=
    (groupKeys (inp.map (fun r => r "item_id"))).map (fun k =>
      let g := inp.filter (fun r => r "item_id" == k)
      (k, (g.map (fun r => qtyOf r * unitCostOf r)).sum / (g.map qtyOf).sum))
  let levels := soh.map (fun p =>
    let w := (wacTbl.lookup p.1).getD 0
    { item_id := p.1, on_hand := p.2, wac := w, value := p.2 * w })
  { cogs := cogs, inventory_levels := levels, cogs_trend := cogs_trend }

/-- csv_service.load_df_for: re-read the file keeping only the required
columns.  Rows are name-indexed, so the restriction is the row list
itself; downstream code only consults required names. -/
def load_df_for (t : CsvType) (csv : Csv) : List Row := csv.rows

/-! ## Aggregator (csv_routes) -/

/-- The combined `{sales, inventory}` metrics structure returned by the
pair/batch insight endpoints. -/
structure Combined where
  sales : SalesMetrics
  inventory : InventoryMetrics
deriving DecidableEq, Repr

/-- Outcome of the pair-insight endpoint's metrics stage: an error
response, or the combined metrics (the subsequent LLM call is an
external collaborator outside this core). -/
inductive PairOut
  | err (msg : String)
  | ok (c : Combined)
deriving DecidableEq, Repr

/-- `status in ("validated", "processed")`. -/
def statusReady (s : Status) : Bool := s == .validated || s == .processed

/-- `not rec or rec.status not in (...)`, positively: a present record in
a ready status. -/
def uploadReady : Option CsvUpload → Bool
  | none => false
  | some r => statusReady r.status

/-- csv_routes.CsvInsightPair.post after upload selection: reject unless
both referenced uploads are present and ready, else compute each type's
metrics and combine. -/
def pairInsight (sales_rec inv_rec : Option CsvUpload)
    (salesCsv invCsv : Csv) : PairOut :=
  if !uploadReady sales_rec then .err "sales upload not ready or missing"
  else if !uploadReady inv_rec then .err "inventory upload not ready or missing"
  else .ok ⟨compute_sales_metrics (load_df_for .sales salesCsv),
            compute_inventory_metrics (load_df_for .inventory invCsv)⟩

/-- csv_routes.CsvInsightBatch.post: same-type row sets are concatenated
(`pd.concat`) before one metrics call per type. -/
def batchConcat (dfs : List (List Row)) : List Row := dfs.flatten

/-! ## Claim-side formulas for the inventory metrics (C1)

These restate, in direct per-item form, what the specification asserts
about `compute_inventory_metrics`; the C1 theorem proves the pipeline
above equal to them. -/

/-- Signed quantity as the spec words it: `+qty` for `IN` and `ADJ`,
`-qty` for `OUT`. -/
def signedQtySpec (r : Row) : ℚ :=
  if normType r = "OUT" then -qtyOf r else qtyOf r

/-- Spec formula: on-hand per item is the sum of signed quantities over
that item's rows. -/
def onHandSpec (rows : List Row) (item : String) : ℚ :=
  ((rows.filter (fun r => r "item_id" == item)).map signedQtySpec).sum

/-- The item's rows that enter the WAC: `IN` rows and `ADJ` rows with
positive quantity. -/
def wacRowsFor (rows : List Row) (item : String) : List Row :=
  rows.filter (fun r => r "item_id" == item && isWacRow r)

/-- Spec formula: `wac = Σ(qty*unit_cost) / Σ(qty)` over the item's
`IN`/positive-`ADJ` rows, 0 when the item has no such rows. -/
def wacSpec (rows : List Row) (item : String) : ℚ :=
  if (wacRowsFor rows item).isEmpty then 0
  else ((wacRowsFor rows item).map (fun r => qtyOf r * unitCostOf r)).sum /
       ((wacRowsFor rows item).map qtyOf).sum

/-- Spec formula: COGS sums `qty*unit_cost` over `OUT` rows, each row at
its own recorded unit cost. -/
def cogsSpec (rows : List Row) : ℚ :=
  ((rows.filter (fun r => normType r == "OUT")).map
    (fun r => qtyOf r * unitCostOf r)).sum

/-! ## Concrete inputs used by witnesses and counterexamples -/

/-- An inventory row literal over the required columns. -/
def mkInvRow (mid mdate item ty q cost : String) : Row := fun c =>
  if c = "move_id" then mid
  else if c = "move_date" then mdate
  else if c = "item_id" then item
  else if c = "type" then ty
  else if c = "qty" then q
  else if c = "unit_cost" then cost
  else ""

/-- A sales row literal over the required columns. -/
def mkSalesRow (inv idate cust item q price : String) : Row := fun c =>
  if c = "invoice_id" then inv
  else if c = "invoice_date" then idate
  else if c = "customer_id" then cust
  else if c = "item_id" then item
  else if c = "qty" then q
  else if c = "unit_price" then price
  else ""

/-- The spec's worked inventory example: `IN 100 units @ cost 5` and
`OUT 30 units @ cost 7` for one item. -/
def invExample : List Row :=
  [mkInvRow "m1" "2024-01-01" "A" "IN" "100" "5",
   mkInvRow "m2" "2024-01-02" "A" "OUT" "30" "7"]

/-! ## Helper lemmas -/

/-- The code's `sgn` on a row agrees with the spec's signed quantity for
every movement-type string (both add `ADJ`, and anything else, as-is). -/
theorem sgn_row_eq_signedQtySpec (r : Row) :
    sgn (normType r) (qtyOf r) = signedQtySpec r := by
  unfold sgn signedQtySpec
  by_cases h1 : normType r = "IN"
  · rw [if_pos h1, if_neg (by rw [h1]; decide)]
  · rw [if_neg h1]

/-- Looking a key up in a table built by mapping over a key list. -/
theorem lookup_map_keys (f : String → ℚ) (k : String) (ks : List String) :
    (ks.map (fun x => (x, f x))).lookup k =
      if k ∈ ks then some (f k) else none := by
  induction ks with
  | nil => simp
  | cons x t ih =>
    by_cases h : k = x
    · subst h; simp [List.lookup]
    · simp only [List.map_cons, List.lookup, beq_false_of_ne h, ih, List.mem_cons]
      simp [h]

/-- A key is a group key of `l.map f` exactly when its group is
nonempty. -/
theorem mem_groupKeys_iff (l : List Row) (f : Row → String) (k : String) :
    k ∈ groupKeys (l.map f) ↔ l.filter (fun r => f r == k) ≠ [] := by
  simp only [groupKeys, List.mem_dedup, List.mem_map, ne_eq,
             List.filter_eq_nil_iff, beq_iff_eq, not_forall]
  constructor
  · rintro ⟨r, hr, rfl⟩; exact ⟨r, hr, by simp⟩
  · rintro ⟨r, hr, h⟩; exact ⟨r, hr, by simpa using h⟩

/-- The item-restricted WAC subset, in the nesting the code computes it
(global subset filter first, item filter second). -/
theorem wacRowsFor_eq_filter (rows : List Row) (k : String) :
    wacRowsFor rows k =
      (rows.filter isWacRow).filter (fun r => r "item_id" == k) := by
  rw [wacRowsFor, List.filter_filter]

/-! ## C1 — inventory metrics -/

/-- C1: for every validated inventory row set, `compute_inventory_metrics`
reports, per item, on-hand as the sum of signed quantities (+qty for IN
and ADJ, -qty for OUT), WAC as Σ(qty*unit_cost)/Σ(qty) over only the
IN/positive-ADJ rows (0 when the item has none), valuation as
on_hand * wac, and COGS as Σ(qty*unit_cost) over OUT rows at each row's
own unit cost; and on the worked example {IN 100 @ 5, OUT 30 @ 7} it
yields on_hand 70, wac 5, valuation 350, cogs 210. -/
theorem c1_inventory_metrics_spec :
    (∀ rows : List Row,
      (∀ r ∈ rows, normType r ∈ (["IN", "OUT", "ADJ"] : List String)) →
      (compute_inventory_metrics rows).cogs = cogsSpec rows ∧
      (∀ lv ∈ (compute_inventory_metrics rows).inventory_levels,
        lv.on_hand = onHandSpec rows lv.item_id ∧
        lv.wac = wacSpec rows lv.item_id ∧
        lv.value = lv.on_hand * lv.wac)) ∧
    (compute_inventory_metrics invExample).cogs = 210 ∧
    (compute_inventory_metrics invExample).inventory_levels =
      [{ item_id := "A", on_hand := 70, wac := 5, value := 350 }] := by
  refine ⟨fun rows _henum => ⟨rfl, ?_⟩, ?_, ?_⟩
  · intro lv hlv
    simp only [compute_inventory_metrics, List.mem_map] at hlv
    obtain ⟨p, hp, rfl⟩ := hlv
    obtain ⟨k, hk, rfl⟩ := hp
    refine ⟨?_, ?_, rfl⟩
    · unfold onHandSpec
      exact congrArg List.sum
        (List.map_congr_left (fun r _ => sgn_row_eq_signedQtySpec r))
    · rw [lookup_map_keys]
      by_cases hmem : k ∈ groupKeys ((rows.filter isWacRow).map (fun r => r "item_id"))
      · rw [if_pos hmem, Option.getD_some, wacSpec,
            if_neg (by
              simp only [List.isEmpty_iff, wacRowsFor_eq_filter]
              exact (mem_groupKeys_iff _ _ _).mp hmem),
            wacRowsFor_eq_filter]
      · rw [if_neg hmem, Option.getD_none, wacSpec,
            if_pos (by
              simp only [List.isEmpty_iff, wacRowsFor_eq_filter]
              by_contra hne
              exact hmem ((mem_groupKeys_iff _ _ _).mpr hne))]
  · simp +decide [invExample, mkInvRow, compute_inventory_metrics, groupKeys,
      normType, pyStrip, pyUpper, trimChars, qtyOf, unitCostOf, parseDecimal,
      parseUnsignedDecimal, splitOnChar, digitsToNat, sgn, isWacRow, dateKey,
      parseDateIso, List.lookup]
    norm_num
  · simp +decide [invExample, mkInvRow, compute_inventory_metrics, groupKeys,
      normType, pyStrip, pyUpper, trimChars, qtyOf, unitCostOf, parseDecimal,
      parseUnsignedDecimal, splitOnChar, digitsToNat, sgn, isWacRow, dateKey,
      parseDateIso, List.lookup]
    norm_num

/-- C1 witness: the general statement applied to the worked example. -/
theorem c1_witness :
    (compute_inventory_metrics invExample).cogs = cogsSpec invExample :=
  (c1_inventory_metrics_spec.1 invExample (by decide)).1

/-! ## C7 — AOV never divides by zero -/

/-- A one-invoice sales example. -/
def salesExample : List Row :=
  [mkSalesRow "i1" "2024-01-01" "c1" "X" "3" "10"]

/-- C7: `compute_sales_metrics` never divides by zero — when there is at
least one distinct invoice id, `aov = revenue / orders`; with no orders
(equivalently, an empty row set) `aov = 0` rather than an error. -/
theorem c7_aov_division_safe (rows : List Row) :
    ((compute_sales_metrics rows).orders ≠ 0 →
      (compute_sales_metrics rows).aov =
        (compute_sales_metrics rows).revenue /
          ((compute_sales_metrics rows).orders : ℚ)) ∧
    ((compute_sales_metrics rows).orders = 0 →
      (compute_sales_metrics rows).aov = 0) ∧
    ((compute_sales_metrics rows).orders = 0 ↔ rows = []) := by
  refine ⟨?_, ?_, ?_⟩
  · intro h
    simp only [compute_sales_metrics] at h ⊢
    rw [if_pos h]
  · intro h
    simp only [compute_sales_metrics] at h ⊢
    rw [if_neg (by simpa using h)]
  · simp [compute_sales_metrics, List.length_eq_zero, List.dedup_eq_nil,
          List.map_eq_nil_iff]

/-- C7 witness: both arms at concrete inputs — one invoice gives
`aov = revenue / orders`, the empty row set gives `aov = 0`. -/
theorem c7_witness :
    (compute_sales_metrics salesExample).aov =
      (compute_sales_metrics salesExample).revenue /
        ((compute_sales_metrics salesExample).orders : ℚ) ∧
    (compute_sales_metrics ([] : List Row)).aov = 0 :=
  ⟨(c7_aov_division_safe salesExample).1 (by decide),
   (c7_aov_division_safe []).2.1 (by decide)⟩

/-! ## C2 — what a validated sales upload actually guarantees

The validator runs `pd.to_numeric(..., errors="raise")` on `qty` and
`unit_price`: it rejects non-numeric text but never checks sign or
integrality, so a sales file with a negative (or fractional) quantity
still validates.  The claim's "non-negative integer quantity" fails; the
provable guarantee is numeric/date parseability for every row,
all-or-nothing. -/

/-- A fresh sales upload record, as save_upload creates it. -/
def recSales0 : CsvUpload := { csv_type := .sales, original_filename := "s.csv" }

/-- A fresh inventory upload record. -/
def recInv0 : CsvUpload := { csv_type := .inventory, original_filename := "i.csv" }

/-- The default configuration (`MAX_CSV_ROWS = 100`). -/
def defaultCfg : Config := {}

/-- A sales row with quantity `-3`. -/
def negQtyRow : Row := mkSalesRow "i1" "2024-01-01" "c1" "X" "-3" "10"

/-- A sales file whose single row has quantity `-3`. -/
def csvNegQty : Csv := { header := REQ_SALES, rows := [negQtyRow] }

/-- C2 counterexample: a sales upload whose row carries quantity `-3`
reaches status `validated`, so a validated upload may contain a row whose
quantity is a negative number. -/
theorem c2_counterexample :
    (validate_upload defaultCfg csvNegQty recSales0).1.status = .validated ∧
    csvNegQty.rows.map (fun r => r "qty") = ["-3"] ∧
    parseDecimal "-3" = some (-3) ∧ ((-3 : ℚ) < 0) := by
  refine ⟨by decide, by decide, ?_, by norm_num⟩
  simp [parseDecimal, parseUnsignedDecimal, trimChars, splitOnChar, digitsToNat]

/-- C2 (amended): every sales upload that a validation call moves to
status `validated` has, in every row, a parseable numeric `qty`, a
parseable numeric `unit_price` and a strict-ISO `invoice_date` — with no
sign or integrality restriction; all-or-nothing over the rows. -/
theorem c2_validated_sales_rows_parse (cfg : Config) (csv : Csv)
    (rec : CsvUpload) (htype : rec.csv_type = .sales)
    (hfresh : rec.status = .uploaded)
    (hval : (validate_upload cfg csv rec).1.status = .validated) :
    ∀ r ∈ csv.rows,
      (parseDecimal (r "qty")).isSome = true ∧
      (parseDecimal (r "unit_price")).isSome = true ∧
      (parseDateIso (r "invoice_date")).isSome = true := by
  have hchecks : rowChecksOk .sales csv.rows = true := by
    simp only [validate_upload, validateOutcome, htype] at hval
    by_cases h1 : !(missingCols .sales csv).isEmpty
    · rw [if_pos h1] at hval
      simp [applyOutcome] at hval
    · rw [if_neg h1] at hval
      by_cases h2 : usecolsFail .sales csv
      · rw [if_pos h2] at hval
        simp [applyOutcome, hfresh] at hval
      · rw [if_neg h2] at hval
        by_cases h3 : csv.rows.length > cfg.maxRows
        · rw [if_pos h3] at hval
          simp [applyOutcome] at hval
        · rw [if_neg h3] at hval
          by_cases h4 : !rowChecksOk .sales csv.rows
          · rw [if_pos h4] at hval
            simp [applyOutcome] at hval
          · simpa using h4
  intro r hr
  rw [rowChecksOk] at hchecks
  simp only [Bool.and_eq_true] at hchecks
  obtain ⟨⟨hdates, hnums⟩, -⟩ := hchecks
  have hq := List.all_eq_true.mp
    (List.all_eq_true.mp hnums "qty" (by decide)) r hr
  have hp := List.all_eq_true.mp
    (List.all_eq_true.mp hnums "unit_price" (by decide)) r hr
  have hd := List.all_eq_true.mp hdates r hr
  exact ⟨hq, hp, hd⟩

/-- C2 witness: the amended guarantee applied to the (validated)
negative-quantity file — its row parses numerically. -/
theorem c2_witness :
    (parseDecimal (negQtyRow "qty")).isSome = true ∧
    (parseDecimal (negQtyRow "unit_price")).isSome = true ∧
    (parseDateIso (negQtyRow "invoice_date")).isSome = true :=
  c2_validated_sales_rows_parse defaultCfg csvNegQty recSales0 rfl rfl
    (by decide) negQtyRow (List.mem_singleton_self negQtyRow)

/-! ## Validation outcome helpers -/

/-- Every required column name is strip-stable. -/
theorem required_trim_stable (t : CsvType) : ∀ c ∈ REQUIRED t, pyStrip c = c := by
  cases t <;> decide

/-- If every required column appears verbatim in the header, none is
reported missing. -/
theorem missingCols_empty_of_header (t : CsvType) (csv : Csv)
    (h : ∀ c ∈ REQUIRED t, c ∈ csv.header) : missingCols t csv = [] := by
  rw [missingCols, List.filter_eq_nil_iff]
  intro c hc
  have hmem : c ∈ strippedCols csv :=
    required_trim_stable t c hc ▸ List.mem_map_of_mem pyStrip (h c hc)
  simp [hmem]

/-- If every required column appears verbatim in the header, the
`usecols` re-read succeeds. -/
theorem usecolsFail_false_of_header (t : CsvType) (csv : Csv)
    (h : ∀ c ∈ REQUIRED t, c ∈ csv.header) : usecolsFail t csv = false := by
  have hall : (REQUIRED t).all (fun c => csv.header.contains c) = true := by
    rw [List.all_eq_true]
    intro c hc
    simpa using h c hc
  simp only [usecolsFail, hall, Bool.not_true]

/-- A fully well-formed file within the ceiling validates. -/
theorem validateOutcome_eq_ok (cfg : Config) (t : CsvType) (csv : Csv)
    (hhdr : ∀ c ∈ REQUIRED t, c ∈ csv.header)
    (hchecks : rowChecksOk t csv.rows = true)
    (hlen : csv.rows.length ≤ cfg.maxRows) :
    validateOutcome cfg t csv = .res true (.ok csv.rows.length) := by
  rw [validateOutcome, missingCols_empty_of_header t csv hhdr,
      usecolsFail_false_of_header t csv hhdr]
  simp [hchecks, Nat.not_lt.mpr hlen]

/-- A well-formed file beyond the ceiling is rejected with the row-limit
error. -/
theorem validateOutcome_rowLimit (cfg : Config) (t : CsvType) (csv : Csv)
    (hhdr : ∀ c ∈ REQUIRED t, c ∈ csv.header)
    (hlen : csv.rows.length > cfg.maxRows) :
    validateOutcome cfg t csv = .res false (.error "Row limit exceeded") := by
  rw [validateOutcome, missingCols_empty_of_header t csv hhdr,
      usecolsFail_false_of_header t csv hhdr]
  simp [hlen]

/-! ## C3 — the row ceiling is an inclusive boundary -/

/-- C3: with all required columns present and rows otherwise well-formed,
a file with exactly `MAX_ROWS` data rows validates, while one with
`MAX_ROWS + 1` rows is rejected as invalid with the row-limit error. -/
theorem c3_row_ceiling (cfg : Config) (rec : CsvUpload) (csvA csvB : Csv)
    (hAhdr : ∀ c ∈ REQUIRED rec.csv_type, c ∈ csvA.header)
    (hArows : rowChecksOk rec.csv_type csvA.rows = true)
    (hAlen : csvA.rows.length = cfg.maxRows)
    (hBhdr : ∀ c ∈ REQUIRED rec.csv_type, c ∈ csvB.header)
    (hBrows : rowChecksOk rec.csv_type csvB.rows = true)
    (hBlen : csvB.rows.length = cfg.maxRows + 1) :
    (validate_upload cfg csvA rec).1.status = .validated ∧
    (validate_upload cfg csvA rec).2 = .res true (.ok cfg.maxRows) ∧
    (validate_upload cfg csvB rec).1.status = .invalid ∧
    (validate_upload cfg csvB rec).2 = .res false (.error "Row limit exceeded") := by
  have hA := validateOutcome_eq_ok cfg rec.csv_type csvA hAhdr hArows (le_of_eq hAlen)
  have hB := validateOutcome_rowLimit cfg rec.csv_type csvB hBhdr (by omega)
  refine ⟨?_, ?_, ?_, ?_⟩ <;>
    simp [validate_upload, hA, hB, applyOutcome, hAlen]

/-- Row-limit configuration of 1 for the boundary witness. -/
def cfg1 : Config := { maxRows := 1 }

/-- A one-data-row sales file. -/
def csvOneRow : Csv :=
  { header := REQ_SALES, rows := [mkSalesRow "i1" "2024-01-01" "c1" "X" "1" "2"] }

/-- A two-data-row sales file. -/
def csvTwoRows : Csv :=
  { header := REQ_SALES,
    rows := [mkSalesRow "i1" "2024-01-01" "c1" "X" "1" "2",
             mkSalesRow "i2" "2024-01-02" "c1" "X" "1" "2"] }

/-- C3 witness: with `MAX_ROWS = 1`, the one-row file validates and the
two-row file is rejected with the row-limit error. -/
theorem c3_witness :
    (validate_upload cfg1 csvOneRow recSales0).1.status = .validated ∧
    (validate_upload cfg1 csvOneRow recSales0).2 = .res true (.ok cfg1.maxRows) ∧
    (validate_upload cfg1 csvTwoRows recSales0).1.status = .invalid ∧
    (validate_upload cfg1 csvTwoRows recSales0).2 =
      .res false (.error "Row limit exceeded") :=
  c3_row_ceiling cfg1 recSales0 csvOneRow csvTwoRows
    (by decide) (by decide) (by decide) (by decide) (by decide) (by decide)

/-! ## C10 — template download/upload round trip -/

/-- csv_routes.CsvTemplate.get: the header-only CSV template for a type —
exactly the required column names, in registry order, no data rows. -/
def templateCsv (t : CsvType) : Csv := { header := REQUIRED t, rows := [] }

/-- The try-block checks hold vacuously on an empty row set. -/
theorem rowChecksOk_nil (t : CsvType) : rowChecksOk t [] = true := by
  cases t <;> rfl

/-- C10: uploading the template back as its own type validates with
`row_count = 0` — an empty data set is not a validation error. -/
theorem c10_template_roundtrip (cfg : Config) (t : CsvType) (fname : String)
    (batch : Option String) (rec : CsvUpload)
    (hsave : save_upload fname t batch = some rec) :
    (validate_upload cfg (templateCsv t) rec).1.status = .validated ∧
    (validate_upload cfg (templateCsv t) rec).1.row_count = some 0 ∧
    (validate_upload cfg (templateCsv t) rec).2 = .res true (.ok 0) := by
  have htype : rec.csv_type = t := by
    unfold save_upload at hsave
    by_cases h : _allowed_file fname
    · rw [if_pos h] at hsave
      cases hsave
      rfl
    · rw [if_neg h] at hsave
      cases hsave
  have hout := validateOutcome_eq_ok cfg rec.csv_type (templateCsv t)
    (by rw [htype]; exact fun c hc => hc)
    (rowChecksOk_nil rec.csv_type)
    (Nat.zero_le _)
  have hout0 : validateOutcome cfg rec.csv_type (templateCsv t) =
      .res true (.ok 0) := by simpa [templateCsv] using hout
  refine ⟨?_, ?_, ?_⟩ <;> simp [validate_upload, hout0, applyOutcome]

/-- C10 witness: the sales template round-trips through a freshly saved
sales upload. -/
theorem c10_witness :
    (validate_upload defaultCfg (templateCsv .sales) recSales0).1.status =
      .validated ∧
    (validate_upload defaultCfg (templateCsv .sales) recSales0).1.row_count =
      some 0 ∧
    (validate_upload defaultCfg (templateCsv .sales) recSales0).2 =
      .res true (.ok 0) :=
  c10_template_roundtrip defaultCfg .sales "s.csv" none recSales0 (by decide)

/-! ## Lifecycle: idempotence of validation and the C4/C9 claims -/

/-- Validation never changes the record's type. -/
theorem applyOutcome_csv_type (rec : CsvUpload) (cols : List String)
    (out : VOut) : (applyOutcome rec cols out).csv_type = rec.csv_type := by
  rcases out with _ | ⟨b, i⟩
  · rfl
  · cases i <;> rfl

/-- Re-validating the same immutable file is idempotent: the second call
takes the same branch and writes the same fields. -/
theorem stepValidate_idem (cfg : Config) (csv : Csv) (rec : CsvUpload) :
    stepValidate cfg csv (stepValidate cfg csv rec) = stepValidate cfg csv rec := by
  simp only [stepValidate, validate_upload, applyOutcome_csv_type]
  generalize validateOutcome cfg rec.csv_type csv = out
  rcases out with _ | ⟨b, i⟩
  · rfl
  · cases i <;> rfl

/-- Any positive number of validation calls equals one call. -/
theorem runValidates_succ_eq (cfg : Config) (csv : Csv) (rec : CsvUpload) :
    ∀ n : Nat, runValidates cfg csv rec (n + 1) = stepValidate cfg csv rec := by
  intro n
  induction n with
  | zero => rfl
  | succ k ih =>
    show stepValidate cfg csv (runValidates cfg csv rec (k + 1)) = _
    rw [ih, stepValidate_idem]

/-- A record created by save_upload is fresh: status `uploaded`, no row
count, no error message. -/
theorem save_upload_fresh (fname : String) (t : CsvType) (batch : Option String)
    (rec : CsvUpload) (hsave : save_upload fname t batch = some rec) :
    rec.status = .uploaded ∧ rec.row_count = none ∧ rec.error_msg = none := by
  unfold save_upload at hsave
  by_cases h : _allowed_file fname
  · rw [if_pos h] at hsave
    cases hsave
    exact ⟨rfl, rfl, rfl⟩
  · rw [if_neg h] at hsave
    cases hsave

/-- The C4 invariant on an upload record: `row_count` populated iff
validated/processed, `error_msg` populated iff invalid/failed. -/
def recInvariant (rec : CsvUpload) : Prop :=
  (rec.row_count.isSome = true ↔
    rec.status = .validated ∨ rec.status = .processed) ∧
  (rec.error_msg.isSome = true ↔
    rec.status = .invalid ∨ rec.status = .failed)

/-- One validation call establishes the invariant on a fresh record
(status `uploaded`, no row count, no error message). -/
theorem stepValidate_invariant_of_fresh (cfg : Config) (csv : Csv)
    (rec : CsvUpload) (hst : rec.status = .uploaded)
    (hrc : rec.row_count = none) (hem : rec.error_msg = none) :
    recInvariant (stepValidate cfg csv rec) := by
  simp only [stepValidate, validate_upload]
  generalize validateOutcome cfg rec.csv_type csv = out
  rcases out with _ | ⟨b, i⟩
  · exact ⟨by simp [applyOutcome, hst, hrc], by simp [applyOutcome, hst, hem]⟩
  · cases i with
    | missing m =>
      exact ⟨by simp [applyOutcome, hrc], by simp [applyOutcome]⟩
    | error msg =>
      exact ⟨by simp [applyOutcome, hrc], by simp [applyOutcome]⟩
    | ok n =>
      exact ⟨by simp [applyOutcome], by simp [applyOutcome, hem]⟩

/-- C4: for every record produced by save_upload and then validated any
number of times against its (immutable) file, `row_count` is populated
iff the status is validated/processed, and `error_msg` is populated iff
the status is invalid/failed. -/
theorem c4_field_population_invariant (cfg : Config) (csv : Csv)
    (fname : String) (t : CsvType) (batch : Option String) (rec : CsvUpload)
    (hsave : save_upload fname t batch = some rec) (n : Nat) :
    recInvariant (runValidates cfg csv rec n) := by
  obtain ⟨hst, hrc, hem⟩ := save_upload_fresh fname t batch rec hsave
  have hbase : recInvariant rec := by
    constructor <;> simp [hst, hrc, hem]
  cases n with
  | zero => exact hbase
  | succ k =>
    rw [runValidates_succ_eq]
    exact stepValidate_invariant_of_fresh cfg csv rec hst hrc hem

/-- C4 witness: the invariant holds concretely after save plus one
validation of a missing-column file (which lands in `invalid`). -/
theorem c4_witness :
    recInvariant (runValidates defaultCfg (templateCsv .inventory) recSales0 1) :=
  c4_field_population_invariant defaultCfg (templateCsv .inventory)
    "s.csv" .sales none recSales0 (by decide) 1

/-- C9: status `invalid` is terminal under the core's operations — once a
save_upload-created record reaches `invalid` after some number of
validation calls, every later point of the trace still shows `invalid`;
retrying requires a new upload. -/
theorem c9_invalid_is_terminal (cfg : Config) (csv : Csv) (fname : String)
    (t : CsvType) (batch : Option String) (rec : CsvUpload)
    (hsave : save_upload fname t batch = some rec) (n m : Nat) (hnm : n ≤ m)
    (hinv : (runValidates cfg csv rec n).status = .invalid) :
    (runValidates cfg csv rec m).status = .invalid := by
  obtain ⟨hst, -, -⟩ := save_upload_fresh fname t batch rec hsave
  cases n with
  | zero =>
    exact absurd (hst ▸ hinv) (by simp)
  | succ k =>
    rw [runValidates_succ_eq] at hinv
    cases m with
    | zero => omega
    | succ j => rw [runValidates_succ_eq]; exact hinv

/-- C9 witness: a sales upload validated against an inventory-shaped file
goes `invalid` at the first call and is still `invalid` two calls later. -/
theorem c9_witness :
    (runValidates defaultCfg (templateCsv .inventory) recSales0 3).status =
      .invalid :=
  c9_invalid_is_terminal defaultCfg (templateCsv .inventory) "s.csv" .sales
    none recSales0 (by decide) 1 3 (by decide) (by decide)

/-! ## C5 — batch aggregation over disjoint sales files

`orders` counts distinct invoice ids and `revenue` is a plain sum, so
both are additive across files with disjoint invoices.  `units_sold`
applies Python `int(...)` to the quantity sum per computation, so it is
additive only when quantities are integers — which validation does not
enforce (see C2): two validated files with quantity `0.5` each give
per-file units `0 + 0` but combined units `1`. -/

/-- Distinct-count is additive across an append with disjoint values. -/
theorem dedup_length_append {α : Type _} [DecidableEq α] :
    ∀ (a b : List α), (∀ x ∈ a, x ∉ b) →
      (a ++ b).dedup.length = a.dedup.length + b.dedup.length := by
  intro a
  induction a with
  | nil => intro b _; simp
  | cons x t ih =>
    intro b h
    have hx : x ∉ b := h x (List.mem_cons_self x t)
    have ht : ∀ y ∈ t, y ∉ b := fun y hy => h y (List.mem_cons_of_mem x hy)
    by_cases hmem : x ∈ t
    · rw [List.cons_append,
          List.dedup_cons_of_mem (List.mem_append.mpr (Or.inl hmem)),
          List.dedup_cons_of_mem hmem]
      exact ih b ht
    · have hnotin : x ∉ t ++ b := by
        rw [List.mem_append]
        rintro (h1 | h1)
        · exact hmem h1
        · exact hx h1
      rw [List.cons_append, List.dedup_cons_of_not_mem hnotin,
          List.dedup_cons_of_not_mem hmem, List.length_cons, List.length_cons,
          ih b ht]
      omega

/-- A quantity sum over rows with integer quantities is an integer. -/
theorem sum_qty_int :
    ∀ l : List Row, (∀ r ∈ l, ∃ n : ℤ, qtyOf r = (n : ℚ)) →
      ∃ N : ℤ, (l.map qtyOf).sum = (N : ℚ) := by
  intro l
  induction l with
  | nil => exact fun _ => ⟨0, by simp⟩
  | cons x t ih =>
    intro h
    obtain ⟨n, hn⟩ := h x (List.mem_cons_self x t)
    obtain ⟨N, hN⟩ := ih (fun r hr => h r (List.mem_cons_of_mem x hr))
    refine ⟨n + N, ?_⟩
    rw [List.map_cons, List.sum_cons, hn, hN]
    push_cast
    ring

/-- Python `int()` of an integer-valued rational is that integer. -/
theorem pyInt_intCast (n : ℤ) : pyInt ((n : ℚ)) = n := by
  unfold pyInt
  split_ifs with h
  · exact Int.floor_intCast n
  · exact Int.ceil_intCast n

/-- C5 (amended): over two validated sales row sets with disjoint invoice
ids **whose quantities are integers**, computing the metrics once over
the batch concatenation gives revenue, units and orders equal to the
sums of the per-file values.  (Without the integrality condition the
units equality can fail — see the counterexample.) -/
theorem c5_batch_additive (a b : List Row)
    (hdisj : ∀ x ∈ a.map (fun r => r "invoice_id"),
      x ∉ b.map (fun r => r "invoice_id"))
    (hint : ∀ r ∈ a ++ b, ∃ n : ℤ, qtyOf r = (n : ℚ)) :
    (compute_sales_metrics (batchConcat [a, b])).revenue =
      (compute_sales_metrics a).revenue + (compute_sales_metrics b).revenue ∧
    (compute_sales_metrics (batchConcat [a, b])).units_sold =
      (compute_sales_metrics a).units_sold +
        (compute_sales_metrics b).units_sold ∧
    (compute_sales_metrics (batchConcat [a, b])).orders =
      (compute_sales_metrics a).orders + (compute_sales_metrics b).orders := by
  have hconcat : batchConcat [a, b] = a ++ b := by simp [batchConcat]
  refine ⟨?_, ?_, ?_⟩
  · rw [hconcat]
    simp [compute_sales_metrics]
  · rw [hconcat]
    obtain ⟨Na, hNa⟩ :=
      sum_qty_int a (fun r hr => hint r (List.mem_append.mpr (Or.inl hr)))
    obtain ⟨Nb, hNb⟩ :=
      sum_qty_int b (fun r hr => hint r (List.mem_append.mpr (Or.inr hr)))
    simp only [compute_sales_metrics, List.map_append, List.sum_append, hNa, hNb]
    have hcast : (Na : ℚ) + (Nb : ℚ) = ((Na + Nb : ℤ) : ℚ) := by push_cast; ring
    rw [hcast, pyInt_intCast, pyInt_intCast, pyInt_intCast]
  · rw [hconcat]
    simp only [compute_sales_metrics, List.map_append]
    exact dedup_length_append _ _ hdisj

/-- C5 witness: the additivity at two concrete one-row integer-quantity
files with disjoint invoices. -/
theorem c5_witness :
    (compute_sales_metrics (batchConcat [salesExample,
        [mkSalesRow "i2" "2024-01-02" "c2" "Y" "4" "2"]])).orders =
      (compute_sales_metrics salesExample).orders +
        (compute_sales_metrics [mkSalesRow "i2" "2024-01-02" "c2" "Y" "4" "2"]).orders :=
  (c5_batch_additive salesExample [mkSalesRow "i2" "2024-01-02" "c2" "Y" "4" "2"]
    (by decide)
    (by
      intro r hr
      simp only [salesExample, List.cons_append, List.nil_append,
        List.mem_cons, List.not_mem_nil, or_false] at hr
      rcases hr with rfl | rfl
      · exact ⟨3, by simp [qtyOf, mkSalesRow, parseDecimal,
          parseUnsignedDecimal, trimChars, splitOnChar, digitsToNat]⟩
      · exact ⟨4, by simp [qtyOf, mkSalesRow, parseDecimal,
          parseUnsignedDecimal, trimChars, splitOnChar, digitsToNat]⟩)).2.2

/-- One validated-shape sales file whose single row has quantity `0.5`,
invoice `i1`. -/
def salesHalfA : List Row := [mkSalesRow "i1" "2024-01-01" "c1" "X" "0.5" "10"]

/-- A second such file with disjoint invoice `i2`. -/
def salesHalfB : List Row := [mkSalesRow "i2" "2024-01-01" "c1" "X" "0.5" "10"]

/-- C5 counterexample: both half-quantity files validate and have
disjoint invoices, yet combined `units_sold` is `1` while the per-file
values are `0` and `0` — batch aggregation is not the sum of per-file
units for every validated pair. -/
theorem c5_counterexample :
    salesHalfA.map (fun r => r "invoice_id") = ["i1"] ∧
    salesHalfB.map (fun r => r "invoice_id") = ["i2"] ∧
    (validate_upload defaultCfg
      { header := REQ_SALES, rows := salesHalfA } recSales0).1.status =
        .validated ∧
    (validate_upload defaultCfg
      { header := REQ_SALES, rows := salesHalfB } recSales0).1.status =
        .validated ∧
    (compute_sales_metrics (batchConcat [salesHalfA, salesHalfB])).units_sold = 1 ∧
    (compute_sales_metrics salesHalfA).units_sold = 0 ∧
    (compute_sales_metrics salesHalfB).units_sold = 0 := by
  refine ⟨by decide, by decide, by decide, by decide, ?_, ?_, ?_⟩ <;>
    · simp [compute_sales_metrics, batchConcat, salesHalfA, salesHalfB,
        mkSalesRow, qtyOf, parseDecimal, parseUnsignedDecimal, trimChars,
        splitOnChar, digitsToNat, pyInt]
      norm_num

/-! ## C6 — unknown columns never block ingestion -/

/-- The same file restricted to the required columns (extras removed from
the header; rows are name-indexed, so they are unchanged). -/
def restrictCsv (csv : Csv) (req : List String) : Csv :=
  { header := csv.header.filter (fun c => req.contains c), rows := csv.rows }

/-- The applied record's status and row count do not depend on which
detected-column list the branch stored. -/
theorem applyOutcome_status_rc_eq (rec : CsvUpload) (cols cols' : List String)
    (out : VOut) :
    (applyOutcome rec cols out).status = (applyOutcome rec cols' out).status ∧
    (applyOutcome rec cols out).row_count =
      (applyOutcome rec cols' out).row_count := by
  rcases out with _ | ⟨b, i⟩
  · exact ⟨rfl, rfl⟩
  · cases i <;> exact ⟨rfl, rfl⟩

/-- C6: when every required column is present, dropping the extra
(unknown) columns changes nothing observable — the validation branch, the
caller-visible `(ok, info)` result, the resulting status and row count,
and both metric computations agree between the original file and its
restriction to the required columns. -/
theorem c6_extra_columns_inert (cfg : Config) (rec : CsvUpload) (csv : Csv)
    (hhdr : ∀ c ∈ REQUIRED rec.csv_type, c ∈ csv.header) :
    validateOutcome cfg rec.csv_type csv =
      validateOutcome cfg rec.csv_type
        (restrictCsv csv (REQUIRED rec.csv_type)) ∧
    (validate_upload cfg csv rec).2 =
      (validate_upload cfg (restrictCsv csv (REQUIRED rec.csv_type)) rec).2 ∧
    (validate_upload cfg csv rec).1.status =
      (validate_upload cfg (restrictCsv csv (REQUIRED rec.csv_type)) rec).1.status ∧
    (validate_upload cfg csv rec).1.row_count =
      (validate_upload cfg (restrictCsv csv (REQUIRED rec.csv_type)) rec).1.row_count ∧
    compute_sales_metrics (load_df_for rec.csv_type csv) =
      compute_sales_metrics
        (load_df_for rec.csv_type (restrictCsv csv (REQUIRED rec.csv_type))) ∧
    compute_inventory_metrics (load_df_for rec.csv_type csv) =
      compute_inventory_metrics
        (load_df_for rec.csv_type (restrictCsv csv (REQUIRED rec.csv_type))) := by
  have hhdr' : ∀ c ∈ REQUIRED rec.csv_type,
      c ∈ (restrictCsv csv (REQUIRED rec.csv_type)).header := by
    intro c hc
    simp only [restrictCsv, List.mem_filter]
    exact ⟨hhdr c hc, by simpa using hc⟩
  have hout : validateOutcome cfg rec.csv_type csv =
      validateOutcome cfg rec.csv_type
        (restrictCsv csv (REQUIRED rec.csv_type)) := by
    rw [validateOutcome, validateOutcome,
        missingCols_empty_of_header _ _ hhdr, missingCols_empty_of_header _ _ hhdr',
        usecolsFail_false_of_header _ _ hhdr, usecolsFail_false_of_header _ _ hhdr']
    rfl
  refine ⟨hout, ?_, ?_, ?_, rfl, rfl⟩
  · simp [validate_upload, hout]
  · simp only [validate_upload]
    rw [← hout]
    exact (applyOutcome_status_rc_eq rec _ _ _).1
  · simp only [validate_upload]
    rw [← hout]
    exact (applyOutcome_status_rc_eq rec _ _ _).2

/-- A one-row sales file carrying an extra `note` column. -/
def csvExtraCol : Csv :=
  { header := REQ_SALES ++ ["note"],
    rows := [mkSalesRow "i1" "2024-01-01" "c1" "X" "1" "2"] }

/-- C6 witness: the inertness of the extra `note` column on a concrete
file. -/
theorem c6_witness :
    (validate_upload defaultCfg csvExtraCol recSales0).2 =
      (validate_upload defaultCfg
        (restrictCsv csvExtraCol (REQUIRED recSales0.csv_type)) recSales0).2 ∧
    (validate_upload defaultCfg csvExtraCol recSales0).1.status =
      (validate_upload defaultCfg
        (restrictCsv csvExtraCol (REQUIRED recSales0.csv_type)) recSales0).1.status :=
  ⟨(c6_extra_columns_inert defaultCfg recSales0 csvExtraCol (by decide)).2.1,
   (c6_extra_columns_inert defaultCfg recSales0 csvExtraCol (by decide)).2.2.1⟩

/-! ## C8 — pairInsight readiness gating -/

/-- A validated sales record. -/
def recSalesV : CsvUpload :=
  { csv_type := .sales, original_filename := "s.csv", status := .validated,
    row_count := some 1 }

/-- A validated inventory record. -/
def recInvV : CsvUpload :=
  { csv_type := .inventory, original_filename := "i.csv", status := .validated,
    row_count := some 2 }

/-- The inventory example as a full CSV file. -/
def csvInvExample : Csv := { header := REQ_INV, rows := invExample }

/-- C8: pairInsight returns a "not ready" error — and computes no
combined metrics — whenever either referenced upload is missing or not in
{validated, processed}; with both ready it returns exactly the combined
`{sales, inventory}` metrics structure. -/
theorem c8_pair_insight_gating (sr ir : Option CsvUpload) (scsv icsv : Csv) :
    (uploadReady sr = false →
      pairInsight sr ir scsv icsv = .err "sales upload not ready or missing") ∧
    (uploadReady sr = true → uploadReady ir = false →
      pairInsight sr ir scsv icsv =
        .err "inventory upload not ready or missing") ∧
    (uploadReady sr = true → uploadReady ir = true →
      pairInsight sr ir scsv icsv =
        .ok ⟨compute_sales_metrics (load_df_for .sales scsv),
             compute_inventory_metrics (load_df_for .inventory icsv)⟩) := by
  refine ⟨?_, ?_, ?_⟩
  · intro h
    simp [pairInsight, h]
  · intro hs hi
    simp [pairInsight, hs, hi]
  · intro hs hi
    simp [pairInsight, hs, hi]

/-- C8 witness: all three gates at concrete inputs — a missing sales
upload errors, an `uploaded`-status inventory upload errors, and a
validated pair yields the combined metrics. -/
theorem c8_witness :
    pairInsight none (some recInvV) csvOneRow csvInvExample =
      .err "sales upload not ready or missing" ∧
    pairInsight (some recSalesV) (some recInv0) csvOneRow csvInvExample =
      .err "inventory upload not ready or missing" ∧
    pairInsight (some recSalesV) (some recInvV) csvOneRow csvInvExample =
      .ok ⟨compute_sales_metrics (load_df_for .sales csvOneRow),
           compute_inventory_metrics (load_df_for .inventory csvInvExample)⟩ :=
  ⟨(c8_pair_insight_gating none (some recInvV) csvOneRow csvInvExample).1
      (by decide),
   (c8_pair_insight_gating (some recSalesV) (some recInv0) csvOneRow
      csvInvExample).2.1 (by decide) (by decide),
   (c8_pair_insight_gating (some recSalesV) (some recInvV) csvOneRow
      csvInvExample).2.2 (by decide) (by decide)⟩

end CsvCore
